import Mathlib

set_option maxRecDepth 100000

/-
Verification development for the LLM gateway of the Force-Journal web app
(src/app/api/llm/route.ts). The route file is shallowly embedded below:
pure helpers (prompt builders, configuration) become Lean functions, the
three provider adapters and the POST handler become functions that also
return the list of outbound wire calls they performed, with the upstream
network modelled as an oracle argument. Long template literals are split
into named pieces (at the text-interpolation point and at the boundaries
of the closing JSON directive); concatenating the pieces in order yields
the source template text verbatim.
-/

/- ---------------- Prompt template literals (verbatim from route.ts) ---- -/

/-- Gemini template, part before the interpolated journal text. -/
def geminiPromptHead : String := "\nYou are a professional journal analyzer. Analyze the following journal entries and provide both advanced visual and textual insights:\n\n"

/-- Gemini template after the journal text, first half of the analysis instructions up to the response-format header (split only to keep literals short). -/
def geminiTailPre1 : String := "\n\nPlease provide the following analysis:\n\n// --- Visual Analysis (as before) ---\n1. Extract keywords for a word cloud (array of strings, most important first)\n2. For each entry, estimate energy (1-10) and productivity (1-10)\n3. List top mood influencers (array of \x7binfluencer, impact\x7d)\n4. For each entry, estimate emotion distribution (object with keys: joy, sadness, anger, fear, surprise, disgust, values 0-1)\n5. List topic hierarchy (array of strings, most important first)\n6. Flow data showing relationships between emotions and factors:\n   - Extract positive and negative emotions\n   - Identify external and internal factors\n   - Create nodes for each emotion and factor\n   - Create edges showing relationships between factors and emotions\n7. For each entry, estimate health metrics: sentiment (0-100), physicalWellness (0-100), mentalResilience (0-100)\n8. Progress metrics (object: health, resilience, academic, research, 0-100)\n9. Analyze the overall journal for:\n   a. Happiness sources (array of \x7bsource, strength, moments, quote, color\x7d)\n   b. Tense usage (object: present, past, future, each as percentage)\n   c. Word choice categories (array of \x7bcategory, percentage\x7d)\n10. Provide a brief, actionable insight (2-3 sentences) summarizing the user\x27s health and wellness trends, strengths, and areas for improvement, based on the metrics above.\n\n// --- Textual Analysis ---\n11. Emotional T"

/-- Gemini template, second half of the analysis instructions up to and including the response-format header line. -/
def geminiTailPre2 : String := "riggers: Link mood shifts to specific events and note stressors (e.g., Holi celebration → \"joy\" in late March, \"adjusting\" in early March).\n12. Energy-Level Tracking: For each time block in the daily rhythm, rate energy/mood (1–5 scale) and note correlations (e.g., late-night creativity and energy/burnout).\n13. Goal Progress Metrics: Track mentions of goals and document milestones or setbacks.\n14. Social Interaction Impact: Analyze how family/professional interactions affect mood.\n15. Sleep & Rest Analysis: Monitor sleep duration/quality and its correlation with productivity.\n16. Creative Output Log: Record creative work output during late-night sessions.\n17. Stress Indicators: Flag stress-related terms and contextualize with events.\n18. Gratitude Tracking: Highlight moments of gratitude to assess positivity trends.\n19. Vocabulary Shifts Over Time: Summarize shifts in language and provide an insight about the progression (see example below).\n20. Major Milestones: List key achievements and provide an insight about their holistic impact (see example below).\n21. Daily Rhythm Patterns: Summarize productive work, self-care, creative exploration, and opportunities for growth (see example below).\n22. For each of the above, provide structured data for tables/lists and a brief insight/summary as shown in the reference images.\n\nFormat your response as JSON with the following structure:\n"

/-- Gemini template: the instruction block between the journal text and the JSON schema example. -/
def geminiTailPre : String := geminiTailPre1 ++ geminiTailPre2

/-- Gemini template, first half of the literal JSON schema example (split only to keep literals short). -/
def geminiSchema1 : String := "\x7b\n  \"keywords\": string[],\n  \"metrics\": \x7b\"energy\": number, \"productivity\": number\x7d[],\n  \"moodInfluencers\": \x7b\"influencer\": string, \"impact\": number\x7d[],\n  \"emotionDistribution\": Record<string, number>[],\n  \"topicHierarchy\": string[],\n  \"flowData\": \x7b\n    \"nodes\": [\n      \x7b\n        \"id\": string,\n        \"label\": string,\n        \"type\": \"emotion\" | \"factor\",\n        \"data\": \x7b\n          \"category\": \"positive\" | \"negative\" | \"external\" | \"internal\"\n        \x7d\n      \x7d\n    ],\n    \"edges\": [\n      \x7b\n        \"id\": string,\n        \"source\": string,\n        \"target\": string,\n        \"label\": string\n      \x7d\n    ]\n  \x7d,\n  \"healthMetrics\": \x7b\"sentiment\": number, \"physicalWellness\": number, \"mentalResilience\": number\x7d[],\n  \"progressMetrics\": \x7b\"health\": number, \"resilience\": number, \"academic\": number, \"research\": number\x7d,\n  \"happinessSources\": [\n    \x7b\"source\": string, \"strength\": number, \"moments\": string[], \"quote\": string, \"color\": string\x7d\n  ],\n  \"tenseUsage\": \x7b\"present\": number, \"past\": number, \"future\": number\x7d,\n  \"wordChoiceCategories\": [\n    \x7b\"category\": string, \"percentage\": number\x7d\n  ],\n  \"healthWellnessInsight\": string,\n  // --- Textual Analysis ---\n  \"emotionalTriggers\": [\n    \x7b \"event\": string, \"mood\": "

/-- Gemini template, second half of the literal JSON schema example. -/
def geminiSchema2 : String := "string, \"timeframe\": string, \"note\": string \x7d\n  ],\n  \"energyLevelTracking\": [\n    \x7b \"timeBlock\": string, \"energy\": number, \"mood\": string, \"correlation\": string \x7d\n  ],\n  \"goalProgressMetrics\": [\n    \x7b \"goal\": string, \"status\": string, \"milestone\": string, \"setback\": string \x7d\n  ],\n  \"socialInteractionImpact\": [\n    \x7b \"interaction\": string, \"moodImpact\": string, \"note\": string \x7d\n  ],\n  \"sleepRestAnalysis\": [\n    \x7b \"date\": string, \"duration\": string, \"quality\": string, \"productivityCorrelation\": string \x7d\n  ],\n  \"creativeOutputLog\": [\n    \x7b \"date\": string, \"output\": string, \"timeBlock\": string \x7d\n  ],\n  \"stressIndicators\": [\n    \x7b \"term\": string, \"context\": string, \"event\": string \x7d\n  ],\n  \"gratitudeTracking\": [\n    \x7b \"moment\": string, \"positivityTrend\": string \x7d\n  ],\n  \"vocabularyShifts\": \x7b\n    \"phases\": [\n      \x7b \"phase\": string, \"words\": string[], \"mood\": string \x7d\n    ],\n    \"insight\": string\n  \x7d,\n  \"majorMilestones\": \x7b\n    \"milestones\": [\n      \x7b \"date\": string, \"title\": string, \"description\": string, \"insight\": string \x7d\n    ],\n    \"insight\": string\n  \x7d,\n  \"dailyRhythmPatterns\": \x7b\n    \"blocks\": [\n      \x7b \"block\": string, \"activities\": string[], \"note\": string \x7d\n    ],\n    \"insight\": string\n  \x7d\n\x7d"

/-- Gemini template: the literal example of the expected JSON shape. -/
def geminiSchemaExample : String := geminiSchema1 ++ geminiSchema2

/-- Gemini template: the closing JSON-only directive line. -/
def geminiDirective : String := "Return ONLY valid JSON."

/-- Gemini template, part after the interpolated journal text: instructions, then the literal JSON schema example, then the closing directive and a final newline (concatenation of the pieces above, verbatim the source template). -/
def geminiPromptTail : String := geminiTailPre ++ geminiSchemaExample ++ "\n" ++ geminiDirective ++ "\n"

/-- OpenAI template, part before the interpolated journal text. -/
def openaiPromptHead : String := "\nAnalyze the following journal entries and provide detailed insights:\n\n"

/-- OpenAI template, the numbered base analysis block after the journal text. -/
def openaiPromptMid : String := "\n\nPlease provide the following analysis as a JSON object:\n1. Overall sentiment analysis (include a score from -10 to +10)\n2. Key topics discussed with their frequency and context\n3. Patterns and trends identified with their significance\n4. Personalized insights based on the entries\n5. Actionable suggestions for the journal writer\n"

/-- OpenAI template: the closing JSON-only directive plus the literal example of the expected JSON shape. -/
def openaiPromptTail : String := "\n\nReturn ONLY a valid JSON object with the following structure:\n\x7b\n    \"sentiment\": \x7b \"overall\": \"string description\", \"score\": number \x7d,\n    \"topics\": [\x7b \"name\": \"string\", \"frequency\": number, \"context\": \"string\" \x7d],\n    \"patterns\": [\x7b \"pattern\": \"string\", \"significance\": \"string\" \x7d],\n    \"insights\": [\"string\"],\n    \"suggestions\": [\"string\"]\n\x7d"

/-- Claude template, part before the interpolated journal text. -/
def claudePromptHead : String := "\nAnalyze the following journal entries and provide comprehensive insights:\n\n"

/-- Claude template, the numbered base analysis block after the journal text. -/
def claudePromptMid : String := "\n\nPlease provide the following analysis in a JSON format:\n1. Overall sentiment analysis with a score from -10 to +10\n2. Key topics discussed with their frequency and context\n3. Patterns and trends identified with their significance\n4. Personalized insights based on the journal content\n5. Actionable suggestions for the journal writer\n"

/-- Claude template: the closing JSON-only directive plus the literal example of the expected JSON shape. -/
def claudePromptTail : String := "\n\nReturn ONLY a valid JSON object with the following structure:\n\x7b\n    \"sentiment\": \x7b \"overall\": \"string description\", \"score\": number \x7d,\n    \"topics\": [\x7b \"name\": \"string\", \"frequency\": number, \"context\": \"string\" \x7d],\n    \"patterns\": [\x7b \"pattern\": \"string\", \"significance\": \"string\" \x7d],\n    \"insights\": [\"string\"],\n    \"suggestions\": [\"string\"]\n\x7d"

/-- OpenAI template: the closing JSON-only directive line. -/
def openaiDirective : String := "Return ONLY a valid JSON object with the following structure:"

/-- OpenAI template: the literal example of the expected JSON shape. -/
def openaiSchemaExample : String := "\n\x7b\n    \"sentiment\": \x7b \"overall\": \"string description\", \"score\": number \x7d,\n    \"topics\": [\x7b \"name\": \"string\", \"frequency\": number, \"context\": \"string\" \x7d],\n    \"patterns\": [\x7b \"pattern\": \"string\", \"significance\": \"string\" \x7d],\n    \"insights\": [\"string\"],\n    \"suggestions\": [\"string\"]\n\x7d"

/-- Claude template: the closing JSON-only directive line. -/
def claudeDirective : String := "Return ONLY a valid JSON object with the following structure:"

/-- Claude template: the literal example of the expected JSON shape. -/
def claudeSchemaExample : String := "\n\x7b\n    \"sentiment\": \x7b \"overall\": \"string description\", \"score\": number \x7d,\n    \"topics\": [\x7b \"name\": \"string\", \"frequency\": number, \"context\": \"string\" \x7d],\n    \"patterns\": [\x7b \"pattern\": \"string\", \"significance\": \"string\" \x7d],\n    \"insights\": [\"string\"],\n    \"suggestions\": [\"string\"]\n\x7d"

/-- OpenAI template head with its final newline removed (proof helper). -/
def openaiHeadA : String := "\nAnalyze the following journal entries and provide detailed insights:\n"

/-- OpenAI template mid block with its leading newline removed (proof helper). -/
def openaiMidB : String := "\nPlease provide the following analysis as a JSON object:\n1. Overall sentiment analysis (include a score from -10 to +10)\n2. Key topics discussed with their frequency and context\n3. Patterns and trends identified with their significance\n4. Personalized insights based on the entries\n5. Actionable suggestions for the journal writer\n"

/-- Claude template head with its final newline removed (proof helper). -/
def claudeHeadA : String := "\nAnalyze the following journal entries and provide comprehensive insights:\n"

/-- Claude template mid block with its leading newline removed (proof helper). -/
def claudeMidB : String := "\nPlease provide the following analysis in a JSON format:\n1. Overall sentiment analysis with a score from -10 to +10\n2. Key topics discussed with their frequency and context\n3. Patterns and trends identified with their significance\n4. Personalized insights based on the journal content\n5. Actionable suggestions for the journal writer\n"

/-- Instruction line appended for includeWordCloud (with its leading newline). -/
def optionLineWordCloud : String := "\n6. Most frequently used words and their context"

/-- Instruction line appended for includeMoodDistribution (with its leading newline). -/
def optionLineMood : String := "\n7. Mood distribution and emotional patterns"

/-- Instruction line appended for includeGoals (with its leading newline). -/
def optionLineGoals : String := "\n8. Goals mentioned and progress tracking"

/-- Instruction line appended for includeSocialInteractions (with its leading newline). -/
def optionLineSocial : String := "\n9. People mentioned and relationship dynamics"

/-- The includeWordCloud instruction line proper (no newline). -/
def lineWordCloud : String := "6. Most frequently used words and their context"

/-- The includeMoodDistribution instruction line proper (no newline). -/
def lineMood : String := "7. Mood distribution and emotional patterns"

/-- The includeGoals instruction line proper (no newline). -/
def lineGoals : String := "8. Goals mentioned and progress tracking"

/-- The includeSocialInteractions instruction line proper (no newline). -/
def lineSocial : String := "9. People mentioned and relationship dynamics"

/- ---------------- JavaScript-semantics helpers ------------------------- -/

/-- Truthiness test for a possibly-absent string field: JS `!x` is true when
the field is absent (undefined) or the empty string. -/
def jsFalsyStr : Option String → Bool
  | none => true
  | some s => s = ""

/-- JS `x || d` for a possibly-absent number `x`: yields `d` when `x` is
absent or equal to 0 (both falsy). -/
def jsOrNum (x : Option ℚ) (d : ℚ) : ℚ :=
  match x with
  | none => d
  | some v => if v = 0 then d else v

/-- JS `x || d` for a possibly-absent string `x`: yields `d` when `x` is
absent or empty. -/
def jsOrStr (x : Option String) (d : String) : String :=
  match x with
  | none => d
  | some s => if s = "" then d else s

/- ---------------- Data model (route.ts interfaces) --------------------- -/

/-- Embeds interface LLMOptions of route.ts. Numeric fields are optional
rationals, toggles are booleans (absent = false). -/
structure LLMOptions where
  temperature : Option ℚ := none
  topP : Option ℚ := none
  topK : Option ℚ := none
  includeWordCloud : Bool := false
  includeMoodDistribution : Bool := false
  includeGoals : Bool := false
  includeSocialInteractions : Bool := false
  includeFlowData : Bool := false
deriving Repr, DecidableEq

/-- Embeds interface LLMResponse of route.ts. -/
structure LLMResponse where
  text : String
  model : String
  error : Option String := none
deriving Repr, DecidableEq

/-- Embeds one entry of the LLM_CONFIG constant. -/
structure ProviderConfig where
  modelName : String
  maxTokens : Nat
deriving Repr, DecidableEq

/-- Shape of the LLM_CONFIG constant of route.ts. -/
structure LLMConfigShape where
  gemini : ProviderConfig
  openai : ProviderConfig
  claude : ProviderConfig
deriving Repr, DecidableEq

/-- Embeds the LLM_CONFIG constant of route.ts. -/
def LLM_CONFIG : LLMConfigShape :=
  { gemini := { modelName := "gemini-2.0-flash", maxTokens := 8192 }
    openai := { modelName := "gpt-3.5-turbo", maxTokens := 4096 }
    claude := { modelName := "claude-3-haiku-20240307", maxTokens := 4096 } }

/-- Process environment: the three provider credentials and the default
provider selector, each possibly unset. -/
structure Env where
  GEMINI_API_KEY : Option String
  OPENAI_API_KEY : Option String
  ANTHROPIC_API_KEY : Option String
  DEFAULT_LLM_PROVIDER : Option String
deriving Repr, DecidableEq

/-- Tag identifying which provider an outbound wire call targets. -/
inductive ProviderTag
  | gemini
  | openai
  | claude
deriving Repr, DecidableEq

/-- Record of one outbound provider call: everything the adapter puts into
the request it sends upstream. Optional fields model JSON body keys that a
given adapter does or does not include (none = key absent from the body). -/
structure WireCall where
  provider : ProviderTag
  endpoint : Option String
  model : String
  promptPayload : String
  systemMessage : Option String
  maxTokens : Nat
  temperature : Option ℚ
  topP : Option ℚ
  topK : Option ℚ
deriving Repr, DecidableEq

/-- Upstream behaviour of the Gemini SDK call: it either resolves with a
response text or throws. -/
inductive GeminiNet
  | ok (text : String)
  | thrown (msg : String)
deriving Repr, DecidableEq

/-- Upstream behaviour of the OpenAI fetch: ok response with the extracted
message content, a non-ok response carrying an optional provider-reported
error message, or a thrown exception. -/
inductive OpenAINet
  | ok (content : String)
  | notOk (msg : Option String)
  | thrown (msg : String)
deriving Repr, DecidableEq

/-- Upstream behaviour of the Claude fetch: ok response whose
`content?.[0]?.text` chain may be absent, a non-ok response carrying an
optional provider-reported error message, or a thrown exception. -/
inductive ClaudeNet
  | ok (content : Option String)
  | notOk (msg : Option String)
  | thrown (msg : String)
deriving Repr, DecidableEq

/-- The three upstream oracles bundled, one per provider adapter. -/
structure Nets where
  gemini : WireCall → GeminiNet
  openai : WireCall → OpenAINet
  claude : WireCall → ClaudeNet

/- ---------------- Prompt builders -------------------------------------- -/

/-- Embeds formatJournalPromptForGemini of route.ts: the fixed template with
the caller text spliced in; the options argument is unused by the source. -/
def formatJournalPromptForGemini (prompt : String) (_options : LLMOptions) : String :=
  geminiPromptHead ++ prompt ++ geminiPromptTail

/-- Embeds formatJournalPromptForOpenAI of route.ts: base template, then one
instruction line per enabled toggle, then the closing JSON directive. -/
def formatJournalPromptForOpenAI (prompt : String) (options : LLMOptions) : String :=
  let s0 := openaiPromptHead ++ prompt ++ openaiPromptMid
  let s1 := if options.includeWordCloud then s0 ++ optionLineWordCloud else s0
  let s2 := if options.includeMoodDistribution then s1 ++ optionLineMood else s1
  let s3 := if options.includeGoals then s2 ++ optionLineGoals else s2
  let s4 := if options.includeSocialInteractions then s3 ++ optionLineSocial else s3
  s4 ++ openaiPromptTail

/-- Embeds formatJournalPromptForClaude of route.ts: base template, then one
instruction line per enabled toggle, then the closing JSON directive. -/
def formatJournalPromptForClaude (prompt : String) (options : LLMOptions) : String :=
  let s0 := claudePromptHead ++ prompt ++ claudePromptMid
  let s1 := if options.includeWordCloud then s0 ++ optionLineWordCloud else s0
  let s2 := if options.includeMoodDistribution then s1 ++ optionLineMood else s1
  let s3 := if options.includeGoals then s2 ++ optionLineGoals else s2
  let s4 := if options.includeSocialInteractions then s3 ++ optionLineSocial else s3
  s4 ++ claudePromptTail

/- ---------------- Provider adapters ------------------------------------ -/

/-- Embeds getGeminiResponse of route.ts. Besides the LLMResponse it returns
the list of outbound wire calls performed (empty when the credential check
throws before any call). -/
def getGeminiResponse (env : Env) (net : WireCall → GeminiNet)
    (prompt : String) (options : LLMOptions) : LLMResponse × List WireCall :=
  if jsFalsyStr env.GEMINI_API_KEY then
    ({ text := ""
       model := LLM_CONFIG.gemini.modelName
       error := some "GEMINI_API_KEY is not defined in environment variables" }, [])
  else
    let structuredPrompt := formatJournalPromptForGemini prompt options
    let call : WireCall :=
      { provider := ProviderTag.gemini
        endpoint := none
        model := LLM_CONFIG.gemini.modelName
        promptPayload := structuredPrompt
        systemMessage := none
        maxTokens := LLM_CONFIG.gemini.maxTokens
        temperature := some (jsOrNum options.temperature 0.7)
        topP := some (jsOrNum options.topP 0.95)
        topK := some (jsOrNum options.topK 40) }
    match net call with
    | GeminiNet.ok t =>
        ({ text := t, model := LLM_CONFIG.gemini.modelName, error := none }, [call])
    | GeminiNet.thrown m =>
        ({ text := "", model := LLM_CONFIG.gemini.modelName, error := some m }, [call])

/-- Embeds getOpenAIResponse of route.ts, wire calls tracked as above. -/
def getOpenAIResponse (env : Env) (net : WireCall → OpenAINet)
    (prompt : String) (options : LLMOptions) : LLMResponse × List WireCall :=
  if jsFalsyStr env.OPENAI_API_KEY then
    ({ text := ""
       model := LLM_CONFIG.openai.modelName
       error := some "OPENAI_API_KEY is not defined in environment variables" }, [])
  else
    let call : WireCall :=
      { provider := ProviderTag.openai
        endpoint := some "https://api.openai.com/v1/chat/completions"
        model := LLM_CONFIG.openai.modelName
        promptPayload := formatJournalPromptForOpenAI prompt options
        systemMessage := some "You are a professional journal analyzer providing insights and analysis."
        maxTokens := LLM_CONFIG.openai.maxTokens
        temperature := some (jsOrNum options.temperature 0.7)
        topP := some (jsOrNum options.topP 0.95)
        topK := none }
    match net call with
    | OpenAINet.ok content =>
        ({ text := content, model := LLM_CONFIG.openai.modelName, error := none }, [call])
    | OpenAINet.notOk m =>
        ({ text := ""
           model := LLM_CONFIG.openai.modelName
           error := some (jsOrStr m "OpenAI API error") }, [call])
    | OpenAINet.thrown m =>
        ({ text := "", model := LLM_CONFIG.openai.modelName, error := some m }, [call])

/-- Embeds getClaudeResponse of route.ts, wire calls tracked as above. -/
def getClaudeResponse (env : Env) (net : WireCall → ClaudeNet)
    (prompt : String) (options : LLMOptions) : LLMResponse × List WireCall :=
  if jsFalsyStr env.ANTHROPIC_API_KEY then
    ({ text := ""
       model := LLM_CONFIG.claude.modelName
       error := some "ANTHROPIC_API_KEY is not defined in environment variables" }, [])
  else
    let call : WireCall :=
      { provider := ProviderTag.claude
        endpoint := some "https://api.anthropic.com/v1/messages"
        model := LLM_CONFIG.claude.modelName
        promptPayload := formatJournalPromptForClaude prompt options
        systemMessage := none
        maxTokens := LLM_CONFIG.claude.maxTokens
        temperature := some (jsOrNum options.temperature 0.7)
        topP := none
        topK := none }
    match net call with
    | ClaudeNet.ok content =>
        ({ text := jsOrStr content ""
           model := LLM_CONFIG.claude.modelName
           error := none }, [call])
    | ClaudeNet.notOk m =>
        ({ text := ""
           model := LLM_CONFIG.claude.modelName
           error := some (jsOrStr m "Claude API error") }, [call])
    | ClaudeNet.thrown m =>
        ({ text := "", model := LLM_CONFIG.claude.modelName, error := some m }, [call])

/- ---------------- Dispatcher (POST handler) ---------------------------- -/

/-- Parsed JSON body of an inbound request: `prompt` and `provider` possibly
absent, `options` defaulting to the empty record as in the source
destructuring. -/
structure RequestBody where
  prompt : Option String := none
  provider : Option String := none
  options : LLMOptions := {}
deriving Repr, DecidableEq

/-- Body of the HTTP response produced by POST: either a bare error object
or a serialized LLMResponse. -/
inductive ResponseBody
  | errorMsg (error : String)
  | result (r : LLMResponse)
deriving Repr, DecidableEq

/-- Resolution of the provider identifier: the request field if present,
otherwise the DEFAULT_LLM_PROVIDER environment value (the source
destructuring default). -/
def resolvedProvider (env : Env) (body : RequestBody) : Option String :=
  match body.provider with
  | none => env.DEFAULT_LLM_PROVIDER
  | some p => some p

/-- Embeds the POST handler of route.ts: validates the prompt, switches on
the resolved provider, and returns the HTTP status, the response body and
the list of outbound wire calls performed while handling the request. -/
def POST (env : Env) (nets : Nets) (body : RequestBody) :
    (Nat × ResponseBody) × List WireCall :=
  if jsFalsyStr body.prompt then
    ((400, ResponseBody.errorMsg "Prompt is required"), [])
  else
    let prompt := body.prompt.getD ""
    let provider := resolvedProvider env body
    if provider = some "gemini" then
      let r := getGeminiResponse env nets.gemini prompt body.options
      ((200, ResponseBody.result r.1), r.2)
    else if provider = some "openai" then
      let r := getOpenAIResponse env nets.openai prompt body.options
      ((200, ResponseBody.result r.1), r.2)
    else if provider = some "claude" then
      let r := getClaudeResponse env nets.claude prompt body.options
      ((200, ResponseBody.result r.1), r.2)
    else ((400, ResponseBody.errorMsg "Invalid LLM provider"), [])

/- ---------------- Line and suffix machinery ---------------------------- -/

/-- Splits a character list into its newline-separated lines (the final
line has no trailing newline; a trailing newline yields a final empty
line, as in the usual split-on-separator semantics). -/
def splitLinesL : List Char → List (List Char)
  | [] => [[]]
  | c :: cs =>
    if c = '\n' then [] :: splitLinesL cs
    else
      match splitLinesL cs with
      | [] => [[c]]
      | l :: ls => (c :: l) :: ls

/-- Number of lines of a string equal to a given line. -/
def lineCount (s t : String) : Nat := (splitLinesL s.data).count t.data

/-- Number of lines of a string. -/
def numLines (s : String) : Nat := (splitLinesL s.data).length

/-- The conditional instruction-line block appended by the OpenAI and Claude
builders, as a character list, one optional segment per toggle. -/
def optionalBlock (b1 b2 b3 b4 : Bool) : List Char :=
  (if b1 then optionLineWordCloud.data else [])
  ++ (if b2 then optionLineMood.data else [])
  ++ (if b3 then optionLineGoals.data else [])
  ++ (if b4 then optionLineSocial.data else [])

/- ---------------- Concrete fixtures ------------------------------------ -/

/-- Environment with every credential set (to a non-empty value) and no
default provider configured. -/
def envAll : Env :=
  { GEMINI_API_KEY := some "k"
    OPENAI_API_KEY := some "k"
    ANTHROPIC_API_KEY := some "k"
    DEFAULT_LLM_PROVIDER := none }

/-- Environment with nothing configured. -/
def envNone : Env :=
  { GEMINI_API_KEY := none
    OPENAI_API_KEY := none
    ANTHROPIC_API_KEY := none
    DEFAULT_LLM_PROVIDER := none }

/-- Trivial upstream oracles: every call succeeds with the text "ok". -/
def netsTriv : Nets :=
  { gemini := fun _ => GeminiNet.ok "ok"
    openai := fun _ => OpenAINet.ok "ok"
    claude := fun _ => ClaudeNet.ok (some "ok") }

/-- Temperature the gateway actually sends, per the amended C8 claim: the
caller value when present and non-zero, otherwise the gateway default
0.7 (the source uses the falsy-or pattern options.temperature || 0.7). -/
def specSentTemperature (o : LLMOptions) : Option ℚ :=
  some (match o.temperature with
        | none => 0.7
        | some t => if t = 0 then 0.7 else t)

/- ---------------- Theorems --------------------------------------------- -/

theorem splitLinesL_ne_nil (l : List Char) : splitLinesL l ≠ [] := by
  induction l with
  | nil => simp [splitLinesL]
  | cons c cs ih =>
    simp only [splitLinesL]
    split
    · simp
    · split
      · simp
      · simp

theorem splitLinesL_append_newline (a b : List Char) :
    splitLinesL (a ++ '\n' :: b) = splitLinesL a ++ splitLinesL b := by
  induction a with
  | nil => simp [splitLinesL]
  | cons c cs ih =>
    by_cases hc : c = '\n'
    · subst hc
      simp [splitLinesL, ih]
    · obtain ⟨l, ls, hls⟩ : ∃ l ls, splitLinesL cs = l :: ls := by
        cases h : splitLinesL cs with
        | nil => exact absurd h (splitLinesL_ne_nil cs)
        | cons l ls => exact ⟨l, ls, rfl⟩
      simp [splitLinesL, hc, ih, hls]

theorem openaiHead_data : openaiPromptHead.data = openaiHeadA.data ++ ['\n'] := by decide

theorem openaiMid_data : openaiPromptMid.data = '\n' :: openaiMidB.data := by decide

theorem claudeHead_data : claudePromptHead.data = claudeHeadA.data ++ ['\n'] := by decide

theorem claudeMid_data : claudePromptMid.data = '\n' :: claudeMidB.data := by decide

theorem openai_splitLines (p : String) (tm tp tk : Option ℚ) (b1 b2 b3 b4 b5 : Bool) :
    splitLinesL (formatJournalPromptForOpenAI p ⟨tm, tp, tk, b1, b2, b3, b4, b5⟩).data
      = splitLinesL openaiHeadA.data ++ splitLinesL p.data
        ++ splitLinesL (openaiMidB.data
            ++ optionalBlock b1 b2 b3 b4
            ++ openaiPromptTail.data) := by
  cases b1 <;> cases b2 <;> cases b3 <;> cases b4 <;>
    simp [formatJournalPromptForOpenAI, optionalBlock, String.data_append,
      openaiHead_data, openaiMid_data, List.append_assoc,
      splitLinesL_append_newline]

theorem openai_rest_counts (b1 b2 b3 b4 : Bool) :
    (splitLinesL (openaiMidB.data ++ optionalBlock b1 b2 b3 b4
        ++ openaiPromptTail.data)).count lineWordCloud.data = (if b1 then 1 else 0)
  ∧ (splitLinesL (openaiMidB.data ++ optionalBlock b1 b2 b3 b4
        ++ openaiPromptTail.data)).count lineMood.data = (if b2 then 1 else 0)
  ∧ (splitLinesL (openaiMidB.data ++ optionalBlock b1 b2 b3 b4
        ++ openaiPromptTail.data)).count lineGoals.data = (if b3 then 1 else 0)
  ∧ (splitLinesL (openaiMidB.data ++ optionalBlock b1 b2 b3 b4
        ++ openaiPromptTail.data)).count lineSocial.data = (if b4 then 1 else 0)
  ∧ (splitLinesL (openaiMidB.data ++ optionalBlock b1 b2 b3 b4
        ++ openaiPromptTail.data)).length
      = 17 + (b1.toNat + b2.toNat + b3.toNat + b4.toNat) := by
  cases b1 <;> cases b2 <;> cases b3 <;> cases b4 <;> decide

theorem claude_splitLines (p : String) (tm tp tk : Option ℚ) (b1 b2 b3 b4 b5 : Bool) :
    splitLinesL (formatJournalPromptForClaude p ⟨tm, tp, tk, b1, b2, b3, b4, b5⟩).data
      = splitLinesL claudeHeadA.data ++ splitLinesL p.data
        ++ splitLinesL (claudeMidB.data
            ++ optionalBlock b1 b2 b3 b4
            ++ claudePromptTail.data) := by
  cases b1 <;> cases b2 <;> cases b3 <;> cases b4 <;>
    simp [formatJournalPromptForClaude, optionalBlock, String.data_append,
      claudeHead_data, claudeMid_data, List.append_assoc,
      splitLinesL_append_newline]

theorem claude_rest_counts (b1 b2 b3 b4 : Bool) :
    (splitLinesL (claudeMidB.data ++ optionalBlock b1 b2 b3 b4
        ++ claudePromptTail.data)).count lineWordCloud.data = (if b1 then 1 else 0)
  ∧ (splitLinesL (claudeMidB.data ++ optionalBlock b1 b2 b3 b4
        ++ claudePromptTail.data)).count lineMood.data = (if b2 then 1 else 0)
  ∧ (splitLinesL (claudeMidB.data ++ optionalBlock b1 b2 b3 b4
        ++ claudePromptTail.data)).count lineGoals.data = (if b3 then 1 else 0)
  ∧ (splitLinesL (claudeMidB.data ++ optionalBlock b1 b2 b3 b4
        ++ claudePromptTail.data)).count lineSocial.data = (if b4 then 1 else 0)
  ∧ (splitLinesL (claudeMidB.data ++ optionalBlock b1 b2 b3 b4
        ++ claudePromptTail.data)).length
      = 17 + (b1.toNat + b2.toNat + b3.toNat + b4.toNat) := by
  cases b1 <;> cases b2 <;> cases b3 <;> cases b4 <;> decide

theorem openai_headA_counts :
    (splitLinesL openaiHeadA.data).count lineWordCloud.data = 0
  ∧ (splitLinesL openaiHeadA.data).count lineMood.data = 0
  ∧ (splitLinesL openaiHeadA.data).count lineGoals.data = 0
  ∧ (splitLinesL openaiHeadA.data).count lineSocial.data = 0
  ∧ (splitLinesL openaiHeadA.data).length = 3 := by decide

theorem claude_headA_counts :
    (splitLinesL claudeHeadA.data).count lineWordCloud.data = 0
  ∧ (splitLinesL claudeHeadA.data).count lineMood.data = 0
  ∧ (splitLinesL claudeHeadA.data).count lineGoals.data = 0
  ∧ (splitLinesL claudeHeadA.data).count lineSocial.data = 0
  ∧ (splitLinesL claudeHeadA.data).length = 3 := by decide

/-- C6: for the OpenAI and Claude prompt builders, each of the four toggles
includeWordCloud, includeMoodDistribution, includeGoals,
includeSocialInteractions, when set, adds exactly one occurrence of its
instruction line to the rendered prompt (counted relative to the lines
already present in the input text), the builder adds no such line when the
toggle is unset, each toggle effect is independent of the other toggles,
and the total number of lines grows by exactly the number of set toggles. -/
theorem optionFlags_add_exactly_one_line (p : String) (o : LLMOptions) :
    lineCount (formatJournalPromptForOpenAI p o) lineWordCloud
      = lineCount p lineWordCloud + (if o.includeWordCloud then 1 else 0)
  ∧ lineCount (formatJournalPromptForOpenAI p o) lineMood
      = lineCount p lineMood + (if o.includeMoodDistribution then 1 else 0)
  ∧ lineCount (formatJournalPromptForOpenAI p o) lineGoals
      = lineCount p lineGoals + (if o.includeGoals then 1 else 0)
  ∧ lineCount (formatJournalPromptForOpenAI p o) lineSocial
      = lineCount p lineSocial + (if o.includeSocialInteractions then 1 else 0)
  ∧ numLines (formatJournalPromptForOpenAI p o)
      = numLines p + 20
        + (o.includeWordCloud.toNat + o.includeMoodDistribution.toNat
           + o.includeGoals.toNat + o.includeSocialInteractions.toNat)
  ∧ lineCount (formatJournalPromptForClaude p o) lineWordCloud
      = lineCount p lineWordCloud + (if o.includeWordCloud then 1 else 0)
  ∧ lineCount (formatJournalPromptForClaude p o) lineMood
      = lineCount p lineMood + (if o.includeMoodDistribution then 1 else 0)
  ∧ lineCount (formatJournalPromptForClaude p o) lineGoals
      = lineCount p lineGoals + (if o.includeGoals then 1 else 0)
  ∧ lineCount (formatJournalPromptForClaude p o) lineSocial
      = lineCount p lineSocial + (if o.includeSocialInteractions then 1 else 0)
  ∧ numLines (formatJournalPromptForClaude p o)
      = numLines p + 20
        + (o.includeWordCloud.toNat + o.includeMoodDistribution.toNat
           + o.includeGoals.toNat + o.includeSocialInteractions.toNat) := by
  obtain ⟨tm, tp, tk, b1, b2, b3, b4, b5⟩ := o
  obtain ⟨ho1, ho2, ho3, ho4, ho5⟩ := openai_rest_counts b1 b2 b3 b4
  obtain ⟨hc1, hc2, hc3, hc4, hc5⟩ := claude_rest_counts b1 b2 b3 b4
  obtain ⟨hoh1, hoh2, hoh3, hoh4, hoh5⟩ := openai_headA_counts
  obtain ⟨hch1, hch2, hch3, hch4, hch5⟩ := claude_headA_counts
  have hos := openai_splitLines p tm tp tk b1 b2 b3 b4 b5
  have hcs := claude_splitLines p tm tp tk b1 b2 b3 b4 b5
  simp only [lineCount, numLines, hos, hcs, List.count_append, List.length_append,
    ho1, ho2, ho3, ho4, ho5, hc1, hc2, hc3, hc4, hc5,
    hoh1, hoh2, hoh3, hoh4, hoh5, hch1, hch2, hch3, hch4, hch5]
  refine ⟨?_, ?_, ?_, ?_, ?_, ?_, ?_, ?_, ?_, ?_⟩ <;> omega

/- ---------------- Closing-directive structure of the templates --------- -/

theorem openaiTail_split :
    openaiPromptTail = "\n\n" ++ (openaiDirective ++ openaiSchemaExample) := by decide

theorem claudeTail_split :
    claudePromptTail = "\n\n" ++ (claudeDirective ++ claudeSchemaExample) := by decide

theorem openai_suffix_key (x : String) :
    (openaiDirective ++ openaiSchemaExample).data <:+ (x ++ openaiPromptTail).data := by
  refine ⟨x.data ++ "\n\n".data, ?_⟩
  rw [openaiTail_split]
  simp [String.data_append, List.append_assoc]

theorem claude_suffix_key (x : String) :
    (claudeDirective ++ claudeSchemaExample).data <:+ (x ++ claudePromptTail).data := by
  refine ⟨x.data ++ "\n\n".data, ?_⟩
  rw [claudeTail_split]
  simp [String.data_append, List.append_assoc]

theorem gemini_suffix_key (x : String) :
    (geminiSchemaExample ++ "\n" ++ geminiDirective ++ "\n").data
      <:+ (x ++ geminiPromptTail).data := by
  refine ⟨x.data ++ geminiTailPre.data, ?_⟩
  simp [geminiPromptTail, String.data_append, List.append_assoc]

/-- C7 (amended): every rendered prompt of the three builders terminates
with an explicit JSON-only closing directive and a literal example of the
expected JSON shape; for the OpenAI and Claude builders the directive
precedes the example, while for the Gemini builder the example precedes
the directive and the prompt ends with the directive and a final newline. -/
theorem prompts_end_with_json_directive_and_schema (p : String) (o : LLMOptions) :
    (openaiDirective ++ openaiSchemaExample).data <:+ (formatJournalPromptForOpenAI p o).data
  ∧ (claudeDirective ++ claudeSchemaExample).data <:+ (formatJournalPromptForClaude p o).data
  ∧ (geminiSchemaExample ++ "\n" ++ geminiDirective ++ "\n").data
      <:+ (formatJournalPromptForGemini p o).data := by
  refine ⟨?_, ?_, ?_⟩
  · simp only [formatJournalPromptForOpenAI]
    exact openai_suffix_key _
  · simp only [formatJournalPromptForClaude]
    exact claude_suffix_key _
  · simp only [formatJournalPromptForGemini]
    exact gemini_suffix_key _

theorem getLast_append_step {x y : List Char}
    (hy : y.getLast? = some '\n') : (x ++ y).getLast? = some '\n' := by
  have hne : y ≠ [] := by
    rintro rfl
    simp at hy
  rw [List.getLast?_append_of_ne_nil x hne]
  exact hy

theorem gemini_prompt_last_char :
    (formatJournalPromptForGemini "x" {}).data.getLast? = some '\n' := by
  simp only [formatJournalPromptForGemini, geminiPromptTail, geminiTailPre,
    geminiSchemaExample, String.data_append, List.append_assoc]
  repeat apply getLast_append_step
  decide

/-- C7 counterexample: for the Gemini builder the closing directive is NOT
followed by the JSON example — the concatenation directive-then-example is
not a suffix of the rendered prompt (the prompt ends with the example and
then the directive instead). -/
theorem gemini_directive_then_schema_not_suffix :
    ¬ ((geminiDirective ++ geminiSchemaExample).data
        <:+ (formatJournalPromptForGemini "x" {}).data) := by
  rintro ⟨t, ht⟩
  have h1 : (geminiDirective ++ geminiSchemaExample).data ≠ [] := by decide
  have h2 : (geminiDirective ++ geminiSchemaExample).data.getLast? = some '}' := by decide
  have h3 := gemini_prompt_last_char
  rw [← ht, List.getLast?_append_of_ne_nil t h1, h2] at h3
  simp at h3

/- ---------------- C1 --------------------------------------------------- -/

/-- C1: for every inbound request whose prompt field is absent or the empty
string, POST returns HTTP 400 with body error "Prompt is required" and
performs no outbound call; the outcome is the same for every environment
and every upstream behaviour, so no credential is consulted. -/
theorem post_missing_prompt_returns_400 (env : Env) (nets : Nets) (body : RequestBody)
    (h : body.prompt = none ∨ body.prompt = some "") :
    POST env nets body = ((400, ResponseBody.errorMsg "Prompt is required"), []) := by
  rcases h with h | h <;> simp [POST, jsFalsyStr, h]

/-- Witness for C1 at the concrete request with an empty prompt. -/
theorem post_missing_prompt_returns_400_witness :
    ((some "" : Option String) = none ∨ (some "" : Option String) = some "")
  ∧ POST envNone netsTriv { prompt := some "" }
      = ((400, ResponseBody.errorMsg "Prompt is required"), []) :=
  ⟨Or.inr rfl, post_missing_prompt_returns_400 envNone netsTriv _ (Or.inr rfl)⟩

/- ---------------- C2 --------------------------------------------------- -/

/-- C2: for every inbound request with a non-falsy prompt whose resolved
provider identifier is none of gemini, openai, claude, POST returns HTTP
400 with body error "Invalid LLM provider" and performs no outbound
call. -/
theorem post_unknown_provider_returns_400 (env : Env) (nets : Nets) (body : RequestBody)
    (hp : jsFalsyStr body.prompt = false)
    (h1 : resolvedProvider env body ≠ some "gemini")
    (h2 : resolvedProvider env body ≠ some "openai")
    (h3 : resolvedProvider env body ≠ some "claude") :
    POST env nets body = ((400, ResponseBody.errorMsg "Invalid LLM provider"), []) := by
  simp [POST, hp, h1, h2, h3]

/-- Witness for C2 at a concrete request naming the provider "mistral". -/
theorem post_unknown_provider_returns_400_witness :
    jsFalsyStr (RequestBody.prompt { prompt := some "x", provider := some "mistral" }) = false
  ∧ POST envNone netsTriv { prompt := some "x", provider := some "mistral" }
      = ((400, ResponseBody.errorMsg "Invalid LLM provider"), []) :=
  ⟨rfl, post_unknown_provider_returns_400 envNone netsTriv _ rfl
      (by decide) (by decide) (by decide)⟩

/- ---------------- C10 -------------------------------------------------- -/

/-- C10: when the request omits the provider field and DEFAULT_LLM_PROVIDER
is unconfigured, POST with a non-empty prompt returns HTTP 400 with error
"Invalid LLM provider" (the unknown-provider outcome, not a 500) and
performs no outbound call. -/
theorem post_no_provider_no_default_returns_400 (env : Env) (nets : Nets)
    (s : String) (o : LLMOptions) (hs : s ≠ "")
    (hd : env.DEFAULT_LLM_PROVIDER = none) :
    POST env nets { prompt := some s, provider := none, options := o }
      = ((400, ResponseBody.errorMsg "Invalid LLM provider"), []) := by
  simp [POST, jsFalsyStr, hs, resolvedProvider, hd]

/-- Witness for C10 at a concrete request and empty environment. -/
theorem post_no_provider_no_default_returns_400_witness :
    "x" ≠ "" ∧ envNone.DEFAULT_LLM_PROVIDER = none
  ∧ POST envNone netsTriv { prompt := some "x", provider := none, options := {} }
      = ((400, ResponseBody.errorMsg "Invalid LLM provider"), []) :=
  ⟨by decide, rfl, post_no_provider_no_default_returns_400 envNone netsTriv "x" {} (by decide) rfl⟩

/- ---------------- C3 --------------------------------------------------- -/

/-- C3: for every well-formed request naming a recognized provider whose
credential environment variable is unset, POST returns HTTP 200 whose
result has empty text, the model identifier configured for that provider,
and an error string naming the missing credential; no outbound call is
made. -/
theorem post_missing_credential_returns_200 (env : Env) (nets : Nets)
    (s : String) (o : LLMOptions) (hs : s ≠ "") :
    (env.GEMINI_API_KEY = none →
      POST env nets { prompt := some s, provider := some "gemini", options := o }
        = ((200, ResponseBody.result
            { text := ""
              model := "gemini-2.0-flash"
              error := some "GEMINI_API_KEY is not defined in environment variables" }), []))
  ∧ (env.OPENAI_API_KEY = none →
      POST env nets { prompt := some s, provider := some "openai", options := o }
        = ((200, ResponseBody.result
            { text := ""
              model := "gpt-3.5-turbo"
              error := some "OPENAI_API_KEY is not defined in environment variables" }), []))
  ∧ (env.ANTHROPIC_API_KEY = none →
      POST env nets { prompt := some s, provider := some "claude", options := o }
        = ((200, ResponseBody.result
            { text := ""
              model := "claude-3-haiku-20240307"
              error := some "ANTHROPIC_API_KEY is not defined in environment variables" }), [])) := by
  refine ⟨fun hk => ?_, fun hk => ?_, fun hk => ?_⟩ <;>
    simp [POST, resolvedProvider, jsFalsyStr, hs, hk, LLM_CONFIG,
      getGeminiResponse, getOpenAIResponse, getClaudeResponse]

/-- Witness for C3: the concrete scenario of the spec, provider openai with
its credential unset. -/
theorem post_missing_credential_returns_200_witness :
    POST envNone netsTriv { prompt := some "x", provider := some "openai", options := {} }
      = ((200, ResponseBody.result
          { text := ""
            model := "gpt-3.5-turbo"
            error := some "OPENAI_API_KEY is not defined in environment variables" }), []) :=
  (post_missing_credential_returns_200 envNone netsTriv "x" {} (by decide)).2.1 rfl

/- ---------------- C4 --------------------------------------------------- -/

/-- C4: every LLMResponse produced by any of the three adapters, on every
execution path (missing credential, upstream failure, success), carries
that adapter's configured model identifier, and whenever its error field
is set its text field is empty. -/
theorem adapters_model_populated_and_error_implies_empty_text (env : Env)
    (gN : WireCall → GeminiNet) (oN : WireCall → OpenAINet) (cN : WireCall → ClaudeNet)
    (p : String) (o : LLMOptions) :
    ((getGeminiResponse env gN p o).1.model = "gemini-2.0-flash"
      ∧ ((getGeminiResponse env gN p o).1.error = none
          ∨ (getGeminiResponse env gN p o).1.text = ""))
  ∧ ((getOpenAIResponse env oN p o).1.model = "gpt-3.5-turbo"
      ∧ ((getOpenAIResponse env oN p o).1.error = none
          ∨ (getOpenAIResponse env oN p o).1.text = ""))
  ∧ ((getClaudeResponse env cN p o).1.model = "claude-3-haiku-20240307"
      ∧ ((getClaudeResponse env cN p o).1.error = none
          ∨ (getClaudeResponse env cN p o).1.text = "")) := by
  refine ⟨?_, ?_, ?_⟩
  · simp only [getGeminiResponse]
    split
    · simp [LLM_CONFIG]
    · split <;> simp [LLM_CONFIG]
  · simp only [getOpenAIResponse]
    split
    · simp [LLM_CONFIG]
    · split <;> simp [LLM_CONFIG]
  · simp only [getClaudeResponse]
    split
    · simp [LLM_CONFIG]
    · split <;> simp [LLM_CONFIG]

/- ---------------- C5 --------------------------------------------------- -/

/-- C5: for every well-formed request naming a supported provider, POST
returns exactly the result of the matching adapter (whatever the other
oracles do), that adapter performs at most one outbound call, and every
call it performs is tagged with that same provider. -/
theorem post_dispatches_to_matching_adapter (env : Env) (nets : Nets)
    (s : String) (o : LLMOptions) (hs : s ≠ "") :
    (POST env nets { prompt := some s, provider := some "gemini", options := o }
        = ((200, ResponseBody.result (getGeminiResponse env nets.gemini s o).1),
           (getGeminiResponse env nets.gemini s o).2)
      ∧ (getGeminiResponse env nets.gemini s o).2.length ≤ 1
      ∧ ∀ c ∈ (getGeminiResponse env nets.gemini s o).2, c.provider = ProviderTag.gemini)
  ∧ (POST env nets { prompt := some s, provider := some "openai", options := o }
        = ((200, ResponseBody.result (getOpenAIResponse env nets.openai s o).1),
           (getOpenAIResponse env nets.openai s o).2)
      ∧ (getOpenAIResponse env nets.openai s o).2.length ≤ 1
      ∧ ∀ c ∈ (getOpenAIResponse env nets.openai s o).2, c.provider = ProviderTag.openai)
  ∧ (POST env nets { prompt := some s, provider := some "claude", options := o }
        = ((200, ResponseBody.result (getClaudeResponse env nets.claude s o).1),
           (getClaudeResponse env nets.claude s o).2)
      ∧ (getClaudeResponse env nets.claude s o).2.length ≤ 1
      ∧ ∀ c ∈ (getClaudeResponse env nets.claude s o).2, c.provider = ProviderTag.claude) := by
  refine ⟨⟨?_, ?_, ?_⟩, ⟨?_, ?_, ?_⟩, ⟨?_, ?_, ?_⟩⟩
  · simp [POST, resolvedProvider, jsFalsyStr, hs]
  · simp only [getGeminiResponse]
    split
    · simp
    · split <;> simp
  · simp only [getGeminiResponse]
    split
    · simp
    · split <;> simp
  · simp [POST, resolvedProvider, jsFalsyStr, hs]
  · simp only [getOpenAIResponse]
    split
    · simp
    · split <;> simp
  · simp only [getOpenAIResponse]
    split
    · simp
    · split <;> simp
  · simp [POST, resolvedProvider, jsFalsyStr, hs]
  · simp only [getClaudeResponse]
    split
    · simp
    · split <;> simp
  · simp only [getClaudeResponse]
    split
    · simp
    · split <;> simp

/-- Witness for C5 at a concrete request for each provider. -/
theorem post_dispatches_to_matching_adapter_witness :
    (POST envAll netsTriv { prompt := some "x", provider := some "gemini", options := {} }
        = ((200, ResponseBody.result (getGeminiResponse envAll netsTriv.gemini "x" {}).1),
           (getGeminiResponse envAll netsTriv.gemini "x" {}).2)
      ∧ (getGeminiResponse envAll netsTriv.gemini "x" {}).2.length ≤ 1
      ∧ ∀ c ∈ (getGeminiResponse envAll netsTriv.gemini "x" {}).2,
          c.provider = ProviderTag.gemini)
  ∧ (POST envAll netsTriv { prompt := some "x", provider := some "openai", options := {} }
        = ((200, ResponseBody.result (getOpenAIResponse envAll netsTriv.openai "x" {}).1),
           (getOpenAIResponse envAll netsTriv.openai "x" {}).2)
      ∧ (getOpenAIResponse envAll netsTriv.openai "x" {}).2.length ≤ 1
      ∧ ∀ c ∈ (getOpenAIResponse envAll netsTriv.openai "x" {}).2,
          c.provider = ProviderTag.openai)
  ∧ (POST envAll netsTriv { prompt := some "x", provider := some "claude", options := {} }
        = ((200, ResponseBody.result (getClaudeResponse envAll netsTriv.claude "x" {}).1),
           (getClaudeResponse envAll netsTriv.claude "x" {}).2)
      ∧ (getClaudeResponse envAll netsTriv.claude "x" {}).2.length ≤ 1
      ∧ ∀ c ∈ (getClaudeResponse envAll netsTriv.claude "x" {}).2,
          c.provider = ProviderTag.claude) :=
  post_dispatches_to_matching_adapter envAll netsTriv "x" {} (by decide)

/- ---------------- C8 --------------------------------------------------- -/

theorem specSentTemperature_eq (o : LLMOptions) :
    specSentTemperature o = some (jsOrNum o.temperature 0.7) := by
  cases h : o.temperature <;> simp [specSentTemperature, jsOrNum, h]

/-- C8 counterexample: with options.temperature absent, the outbound OpenAI
call does carry a gateway-chosen sampling temperature, namely the default
0.7 — the call does not leave the temperature unset. -/
theorem temperature_absent_still_sends_default :
    (getOpenAIResponse envAll netsTriv.openai "x" {}).2.map WireCall.temperature
      = [some (0.7 : ℚ)]
  ∧ (getOpenAIResponse envAll netsTriv.openai "x" {}).2.map WireCall.temperature
      ≠ [none] := by
  constructor
  · simp [getOpenAIResponse, envAll, netsTriv, jsFalsyStr, jsOrNum]
  · simp [getOpenAIResponse, envAll, netsTriv, jsFalsyStr, jsOrNum]

/-- C8 (amended): each adapter always sends an explicit sampling
temperature on its outbound call: the caller value when present and
non-zero, and the gateway default 0.7 when the temperature option is
absent or zero. -/
theorem adapters_sent_temperature (env : Env) (nets : Nets)
    (p : String) (o : LLMOptions)
    (h1 : jsFalsyStr env.GEMINI_API_KEY = false)
    (h2 : jsFalsyStr env.OPENAI_API_KEY = false)
    (h3 : jsFalsyStr env.ANTHROPIC_API_KEY = false) :
    (getGeminiResponse env nets.gemini p o).2.map WireCall.temperature
      = [specSentTemperature o]
  ∧ (getOpenAIResponse env nets.openai p o).2.map WireCall.temperature
      = [specSentTemperature o]
  ∧ (getClaudeResponse env nets.claude p o).2.map WireCall.temperature
      = [specSentTemperature o] := by
  rw [specSentTemperature_eq]
  refine ⟨?_, ?_, ?_⟩
  · simp only [getGeminiResponse, h1]
    split
    · simp_all
    · split <;> simp
  · simp only [getOpenAIResponse, h2]
    split
    · simp_all
    · split <;> simp
  · simp only [getClaudeResponse, h3]
    split
    · simp_all
    · split <;> simp

/-- Witness for the amended C8 at a concrete request with every credential
present. -/
theorem adapters_sent_temperature_witness :
    (getGeminiResponse envAll netsTriv.gemini "x" {}).2.map WireCall.temperature
      = [specSentTemperature {}]
  ∧ (getOpenAIResponse envAll netsTriv.openai "x" {}).2.map WireCall.temperature
      = [specSentTemperature {}]
  ∧ (getClaudeResponse envAll netsTriv.claude "x" {}).2.map WireCall.temperature
      = [specSentTemperature {}] :=
  adapters_sent_temperature envAll netsTriv "x" {} rfl rfl rfl

/- ---------------- C9 --------------------------------------------------- -/

/-- C9 counterexample: the outbound Claude call carries no top-p sampling
parameter at all (the source request body has no top_p key), refuting the
claim that every adapter call includes top-p. -/
theorem claude_call_carries_no_topP :
    (getClaudeResponse envAll netsTriv.claude "x" {}).2.map WireCall.topP = [none]
  ∧ (getClaudeResponse envAll netsTriv.claude "x" {}).2.length = 1 := by
  constructor
  · simp [getClaudeResponse, envAll, netsTriv, jsFalsyStr]
  · simp [getClaudeResponse, envAll, netsTriv, jsFalsyStr]

/-- C9 (amended): with its credential present, each adapter performs
exactly one outbound call carrying the rendered prompt, the provider token
budget (8192 for Gemini, 4096 for OpenAI and Claude) and an explicit
temperature; Gemini additionally carries top-p and top-k, OpenAI carries
top-p but no top-k, and Claude carries neither top-p nor top-k. -/
theorem adapters_wire_call_contents (env : Env) (nets : Nets)
    (p : String) (o : LLMOptions)
    (h1 : jsFalsyStr env.GEMINI_API_KEY = false)
    (h2 : jsFalsyStr env.OPENAI_API_KEY = false)
    (h3 : jsFalsyStr env.ANTHROPIC_API_KEY = false) :
    (∃ c, (getGeminiResponse env nets.gemini p o).2 = [c]
       ∧ c.promptPayload = formatJournalPromptForGemini p o
       ∧ c.maxTokens = 8192
       ∧ c.temperature.isSome = true ∧ c.topP.isSome = true ∧ c.topK.isSome = true)
  ∧ (∃ c, (getOpenAIResponse env nets.openai p o).2 = [c]
       ∧ c.promptPayload = formatJournalPromptForOpenAI p o
       ∧ c.maxTokens = 4096
       ∧ c.temperature.isSome = true ∧ c.topP.isSome = true ∧ c.topK = none)
  ∧ (∃ c, (getClaudeResponse env nets.claude p o).2 = [c]
       ∧ c.promptPayload = formatJournalPromptForClaude p o
       ∧ c.maxTokens = 4096
       ∧ c.temperature.isSome = true ∧ c.topP = none ∧ c.topK = none) := by
  refine ⟨?_, ?_, ?_⟩
  · simp only [getGeminiResponse, h1]
    split
    · simp_all
    · split <;> exact ⟨_, rfl, by simp [LLM_CONFIG]⟩
  · simp only [getOpenAIResponse, h2]
    split
    · simp_all
    · split <;> exact ⟨_, rfl, by simp [LLM_CONFIG]⟩
  · simp only [getClaudeResponse, h3]
    split
    · simp_all
    · split <;> exact ⟨_, rfl, by simp [LLM_CONFIG]⟩

/-- Witness for the amended C9 at a concrete request with every credential
present. -/
theorem adapters_wire_call_contents_witness :
    (∃ c, (getGeminiResponse envAll netsTriv.gemini "x" {}).2 = [c]
       ∧ c.promptPayload = formatJournalPromptForGemini "x" {}
       ∧ c.maxTokens = 8192
       ∧ c.temperature.isSome = true ∧ c.topP.isSome = true ∧ c.topK.isSome = true)
  ∧ (∃ c, (getOpenAIResponse envAll netsTriv.openai "x" {}).2 = [c]
       ∧ c.promptPayload = formatJournalPromptForOpenAI "x" {}
       ∧ c.maxTokens = 4096
       ∧ c.temperature.isSome = true ∧ c.topP.isSome = true ∧ c.topK = none)
  ∧ (∃ c, (getClaudeResponse envAll netsTriv.claude "x" {}).2 = [c]
       ∧ c.promptPayload = formatJournalPromptForClaude "x" {}
       ∧ c.maxTokens = 4096
       ∧ c.temperature.isSome = true ∧ c.topP = none ∧ c.topK = none) :=
  adapters_wire_call_contents envAll netsTriv "x" {} rfl rfl rfl
